import Mathlib

/-!
Verification development for the onboarding-assistant frontend
(React client, files `src/frontend/src/App.js`, the component files under
`src/frontend/src/components/`, and the sibling iterations in `src/unnamed/`).

The JavaScript handlers are embedded shallowly: each React event handler
becomes a pure Lean function from the component state (and the replies the
remote service would return for the requests the handler issues) to the new
component state together with the list of network requests issued, in order.
JavaScript strings become `String`, `null`/`undefined` become `Option`,
a request that throws is an `Except.error`.
-/

/-- A conversation log entry, as built by `setMessages` in `App.js`:
`{ text, isUser }`. -/
structure Turn where
  text : String
  isUser : Bool
deriving DecidableEq, Repr

/-- The network requests the client can issue, matching `services/api.js`
(`src/unnamed/part_006`) and the raw `fetch` in `handleVoiceResponse`
(`src/unnamed/part_008`).  `fetchAudio` is the `fetch` of the audio file
inside `getNextQuestionAudio`. -/
inductive Request where
  | createSession : Request
  | getQuestion (sid : String) : Request
  | fetchAudio (url : String) : Request
  | submitAnswer (sid : String) (answer : String) : Request
  | uploadDocs (sid : String) (files : List String) : Request
  | answerTranscribe (sid : String) : Request
  | resetSession (sid : String) : Request
deriving DecidableEq, Repr

/-- Reply of `GET /questions/{sid}` and of `POST /answer/{sid}`:
`{ message, awaiting_followup, done, audio_url? }`. -/
structure QuestionResponse where
  message : String
  awaiting_followup : Bool
  done : Bool
  audio_url : Option String
deriving DecidableEq, Repr

/-- Reply of `POST /document/{sid}`: the fields `handleFileUpload` reads
(`extracted_data`; the extracted tree is kept opaque as a string). -/
structure UploadResponse where
  extracted_data : String
deriving DecidableEq, Repr

/-- Reply of `POST /answer_transcribe/{sid}` as read by
`handleVoiceResponse` in `src/unnamed/part_008`:
`message` (or `text`), `awaiting_followup`, `done`, `audio_url?`. -/
structure VoiceResponse where
  message : Option String
  text : Option String
  awaiting_followup : Bool
  done : Bool
  audio_url : Option String
deriving DecidableEq, Repr

/-- The `useState`/`useRef` cells of the `App` component
(`src/frontend/src/App.js` lines 11-19). -/
structure AppState where
  sessionId : Option String
  messages : List Turn
  isLoading : Bool
  awaitingFollowup : Bool
  latestExtractedData : Option String
  latestAudioUrl : Option String
  isDone : Bool
  hasInitialized : Bool
deriving DecidableEq, Repr

/-- Initial render state of `App` (all `useState` initialisers). -/
def initialAppState : AppState :=
  { sessionId := none, messages := [], isLoading := false
  , awaitingFollowup := false, latestExtractedData := none
  , latestAudioUrl := none, isDone := false, hasInitialized := false }

/-- A `{ text, isUser: true }` log entry. -/
def userTurn (text : String) : Turn := { text := text, isUser := true }

/-- A `{ text, isUser: false }` log entry. -/
def assistantTurn (text : String) : Turn := { text := text, isUser := false }

/-- Model of `URL.createObjectURL` applied to the blob fetched from `url`:
an opaque object URL derived from the fetched resource. -/
def objectUrlOf (url : String) : String := "blob:" ++ url

/-- `api.getNextQuestionAudio` (`src/unnamed/part_006` lines 20-35): issues
`GET /questions/{sid}`; if that reply carries an `audio_url` it additionally
fetches the audio file and returns an object URL; every failure is caught
inside and yields `undefined` (`none`).  Returns the value handed back to
the caller together with the requests issued. -/
def getNextQuestionAudio (sid : String)
    (qRes : Except Unit QuestionResponse) :
    Option String × List Request :=
  match qRes with
  | .error _ => (none, [Request.getQuestion sid])
  | .ok r =>
    match r.audio_url with
    | some u => (some (objectUrlOf u), [Request.getQuestion sid, Request.fetchAudio u])
    | none => (none, [Request.getQuestion sid])

/-- The inline assistant message appended when initialization fails. -/
def initFailTurn : Turn :=
  { text := "Failed to start the session. Please refresh the page.", isUser := false }

/-- `initializeSession` (`src/frontend/src/App.js` lines 22-50).  The
`hasInitialized` ref is checked and set synchronously before the first
`await`, so a second invocation — even one starting before the first
completes — takes the early return.  `createRes` is the reply to
`POST /session`, `qRes` to the first `GET /questions/{sid}`, and
`audioQRes` the reply `getNextQuestionAudio` sees for its own question
fetch. -/
def initializeSession (st : AppState)
    (createRes : Except Unit String)
    (qRes : Except Unit QuestionResponse)
    (audioQRes : Except Unit QuestionResponse) :
    AppState × List Request :=
  if st.hasInitialized then (st, [])
  else
    let st := { st with hasInitialized := true, isLoading := true }
    match createRes with
    | .error _ =>
      ({ st with messages := [initFailTurn], isLoading := false },
       [Request.createSession])
    | .ok sid =>
      let st := { st with sessionId := some sid }
      match qRes with
      | .error _ =>
        ({ st with messages := [initFailTurn], isLoading := false },
         [Request.createSession, Request.getQuestion sid])
      | .ok q =>
        let st := { st with
          messages := [assistantTurn q.message]
        , awaitingFollowup := q.awaiting_followup
        , isDone := q.done }
        let audio := getNextQuestionAudio sid audioQRes
        ({ st with latestAudioUrl := audio.1, isLoading := false },
         [Request.createSession, Request.getQuestion sid] ++ audio.2)

/-- The inline assistant message appended when `submitAnswer` fails. -/
def sendFailTurn : Turn :=
  { text := "An error occurred while processing your message. Please try again."
  , isUser := false }

/-- `handleSendMessage` (`src/frontend/src/App.js` lines 53-79): guarded by
`!sessionId || isLoading`; appends the user turn, posts the answer, appends
the assistant reply and fetches its audio, or appends an inline error turn
on failure. -/
def handleSendMessage (st : AppState) (text : String)
    (submitRes : Except Unit QuestionResponse)
    (audioQRes : Except Unit QuestionResponse) :
    AppState × List Request :=
  match st.sessionId, st.isLoading with
  | none, _ => (st, [])
  | some _, true => (st, [])
  | some sid, false =>
    let st := { st with
      messages := st.messages ++ [userTurn text]
    , isLoading := true }
    match submitRes with
    | .error _ =>
      ({ st with messages := st.messages ++ [sendFailTurn], isLoading := false },
       [Request.submitAnswer sid text])
    | .ok r =>
      let st := { st with
        messages := st.messages ++ [assistantTurn r.message]
      , awaitingFollowup := r.awaiting_followup
      , isDone := r.done }
      let audio := getNextQuestionAudio sid audioQRes
      ({ st with latestAudioUrl := audio.1, isLoading := false },
       Request.submitAnswer sid text :: audio.2)

/-- The inline assistant message appended when an upload round trip fails. -/
def uploadFailTurn : Turn :=
  { text := "An error occurred while processing the files. Please try again."
  , isUser := false }

/-- `handleFileUpload` (`src/frontend/src/App.js` lines 82-121): guarded by
`!sessionId || isLoading`; wraps a single file into a one-element array,
appends an "Uploading N file(s)" user turn, posts the batch, records the
extracted data, appends a "N File(s) processed successfully." assistant
turn, then fetches and appends the next question.  `files` is the already
normalised array (`Array.isArray` handling is the caller's `[files]`
wrap, represented here by passing a one-element list). -/
def handleFileUpload (st : AppState) (files : List String)
    (uploadRes : Except Unit UploadResponse)
    (nextQRes : Except Unit QuestionResponse) :
    AppState × List Request :=
  match st.sessionId, st.isLoading with
  | none, _ => (st, [])
  | some _, true => (st, [])
  | some sid, false =>
    let n := files.length
    let st := { st with
      messages := st.messages ++
        [userTurn ("Uploading " ++ Nat.repr n ++ " file(s)")]
    , isLoading := true }
    match uploadRes with
    | .error _ =>
      ({ st with messages := st.messages ++ [uploadFailTurn], isLoading := false },
       [Request.uploadDocs sid files])
    | .ok up =>
      let st := { st with
        latestExtractedData := some up.extracted_data
      , messages := st.messages ++
          [assistantTurn (Nat.repr n ++ " File(s) processed successfully.")] }
      match nextQRes with
      | .error _ =>
        ({ st with messages := st.messages ++ [uploadFailTurn], isLoading := false },
         [Request.uploadDocs sid files, Request.getQuestion sid])
      | .ok q =>
        ({ st with
          messages := st.messages ++ [assistantTurn q.message]
        , awaitingFollowup := q.awaiting_followup
        , isDone := q.done
        , isLoading := false },
         [Request.uploadDocs sid files, Request.getQuestion sid])

/-- The inline assistant message appended when the transcription round trip
fails. -/
def voiceFailTurn : Turn :=
  { text := "Something went wrong after transcribing audio.", isUser := false }

/-- The user turn appended by `handleVoiceResponse` before its request. -/
def voiceSentTurn : Turn :=
  { text := "🎤 Voice input sent...", isUser := true }

/-- The string interpolated for `sessionId` in the fetch URL of
`handleVoiceResponse`; a `null` session interpolates as the string
`"null"` in a JavaScript template literal. -/
def sessionIdString (sid : Option String) : String :=
  match sid with
  | some s => s
  | none => "null"

/-- `handleVoiceResponse` (`src/unnamed/part_008` lines 193-229): appends a
user turn, posts the recorded blob to `/answer_transcribe/{sessionId}`,
appends the reply message (falling back from `message` to `text` to a
placeholder), updates turn state and audio URL, or appends an inline error
turn on failure.  Unlike the sibling handlers it performs no
`!sessionId || isLoading` check. -/
def handleVoiceResponse (st : AppState)
    (res : Except Unit VoiceResponse) :
    AppState × List Request :=
  let st := { st with messages := st.messages ++ [voiceSentTurn], isLoading := true }
  let req := Request.answerTranscribe (sessionIdString st.sessionId)
  match res with
  | .error _ =>
    ({ st with messages := st.messages ++ [voiceFailTurn], isLoading := false }, [req])
  | .ok r =>
    let msgText := (r.message.orElse fun _ => r.text).getD "🤖 No message"
    ({ st with
      messages := st.messages ++ [assistantTurn msgText]
    , awaitingFollowup := r.awaiting_followup
    , isDone := r.done
    , latestAudioUrl :=
        match r.audio_url with
        | some u => some ("http://localhost:8000" ++ u)
        | none => st.latestAudioUrl
    , isLoading := false }, [req])

/-- The `files` argument of `api.uploadDocuments` as the call sites supply
it: the literal string `"skip"` (from `FileUpload`'s `handleSkip` via
`onUpload("skip")`), an array of files, or a single file. -/
inductive FilesValue where
  | skip : FilesValue
  | batch (fs : List String) : FilesValue
  | single (f : String) : FilesValue
deriving DecidableEq, Repr

/-- The request issued by `api.submitAnswer` (`src/unnamed/part_006`
lines 38-43): `POST /answer/{sid}` with the answer text. -/
def submitAnswerRequest (sid : String) (answer : String) : Request :=
  Request.submitAnswer sid answer

/-- The requests issued by `api.uploadDocuments` (`src/unnamed/part_006`
lines 62-91): when given the literal `"skip"` it delegates to
`api.submitAnswer` with `"skip"`; an array posts each file under the
`files` field of one multipart request; a single file is posted alone. -/
def uploadDocumentsRequests (sid : String) (files : FilesValue) : List Request :=
  match files with
  | .skip => [submitAnswerRequest sid "skip"]
  | .batch fs => [Request.uploadDocs sid fs]
  | .single f => [Request.uploadDocs sid [f]]

/-- The value `FileUpload`'s skip button hands to `onUpload`
(`src/frontend/src/components/FileUpload.jsx` lines 66-69:
`onUpload("skip")`). -/
def handleSkipValue : FilesValue := FilesValue.skip

/-- `String.prototype.padStart(len, c)`: prepend copies of `c` until the
length is at least `len`; a string already that long is returned
unchanged. -/
def padStart (s : String) (len : Nat) (c : Char) : String :=
  if len ≤ s.length then s
  else String.mk (List.replicate (len - s.length) c) ++ s

/-- `formatTime` (`src/frontend/src/components/AudioRecorder.jsx`
lines 60-64): minutes and seconds each rendered in decimal and
`padStart(2, '0')`-padded, joined by a colon. -/
def formatTime (seconds : Nat) : String :=
  let minutes := seconds / 60
  let remainingSeconds := seconds % 60
  padStart (Nat.repr minutes) 2 '0' ++ ":" ++ padStart (Nat.repr remainingSeconds) 2 '0'

/-- Rendering described by the claim: the decimal numeral left-padded with
`'0'` to (at least) two digits, built by direct replication. -/
def zeroPadTwo (n : Nat) : String :=
  String.mk (List.replicate (2 - (Nat.repr n).length) '0') ++ Nat.repr n

/-!
Model of the `CameraCapture` component
(`src/frontend/src/components/CameraCapture.jsx`).

React semantics made explicit: the effect at lines 14-42 runs once per
mount and once per change of `facingMode`; the cleanup closure it returns
captures the `stream` state variable of the render in which the effect ran.
At mount that value is the `useState(null)` initialiser, and `setStream`
inside `startCamera` does not re-run the effect, so the closure the unmount
cleanup executes holds the stream value from before the acquisition.
Streams are numbered by acquisition order; `stopped` records the streams
whose tracks have been stopped (stopping an already-stopped track is a
no-op, so the set view is exact).
-/

/-- State of one mounted `CameraCapture` instance together with the
acquire/release accounting the resource-safety claim speaks about. -/
structure CamState where
  stream : Option Nat
  capturedImage : Bool
  cleanupStream : Option Nat
  acquired : Nat
  stopped : List Nat
  emitted : Nat
  cameraError : Bool
  unmounted : Bool
deriving DecidableEq, Repr

/-- `CamState` at first render: `useState(null)` / `useState(null)` /
nothing acquired yet. -/
def camInitial : CamState :=
  { stream := none, capturedImage := false, cleanupStream := none
  , acquired := 0, stopped := [], emitted := 0
  , cameraError := false, unmounted := false }

/-- Record a `stream.getTracks().forEach(track => track.stop())` on stream
`s` (idempotent per stream, as stopping a stopped track does nothing). -/
def camStop (st : CamState) (s : Nat) : CamState :=
  if s ∈ st.stopped then st else { st with stopped := st.stopped ++ [s] }

/-- The body of the `startCamera` effect (lines 14-42) for one run: the
returned cleanup closure captures the current render's `stream`, then
`getUserMedia` either succeeds (a fresh stream becomes current) or fails
(error message shown, no acquisition). -/
def camEffectRun (st : CamState) (ok : Bool) : CamState :=
  let st := { st with cleanupStream := st.stream }
  if ok then
    { st with
      stream := some st.acquired
    , acquired := st.acquired + 1
    , cameraError := false }
  else
    { st with cameraError := true }

/-- `takePicture` (lines 56-80): snapshots a frame into `capturedImage`
without touching the stream. -/
def takePicture (st : CamState) : CamState :=
  if st.stream.isSome then { st with capturedImage := true } else st

/-- `retakePicture` (lines 102-107): discard the captured image only. -/
def retakePicture (st : CamState) : CamState :=
  { st with capturedImage := false }

/-- The effect cleanup (lines 37-41) as run at unmount: stops the tracks of
the stream its closure captured, if any. -/
def camUnmountCleanup (st : CamState) : CamState :=
  let st :=
    match st.cleanupStream with
    | some s => camStop st s
    | none => st
  { st with unmounted := true }

/-- `confirmCapture` (lines 83-99): emit the captured file via `onCapture`,
revoke the preview URL, clear the captured image, and call `onClose` —
which in `FileUpload` sets `showCamera` to `false`, unmounting the
component and running the effect cleanup.  No track is stopped in the
handler itself. -/
def confirmCapture (st : CamState) : CamState :=
  if st.capturedImage then
    camUnmountCleanup { st with emitted := st.emitted + 1, capturedImage := false }
  else st

/-- `handleClose` (lines 110-118): revoke any preview, stop the tracks of
the current stream, and call `onClose` (unmount, running the effect
cleanup). -/
def handleCameraClose (st : CamState) : CamState :=
  let st :=
    match st.stream with
    | some s => camStop st s
    | none => st
  camUnmountCleanup { st with capturedImage := false }

/-- `switchCamera` (lines 45-53): stop the current stream's tracks, then
toggle `facingMode`, which re-runs the effect: the previous run's cleanup
executes on its captured stream, then the effect body runs again in the
render whose `stream` is still the old value. -/
def switchCamera (st : CamState) (ok : Bool) : CamState :=
  let st :=
    match st.stream with
    | some s => camStop st s
    | none => st
  let st :=
    match st.cleanupStream with
    | some s => camStop st s
    | none => st
  camEffectRun st ok

/-- The number of device-release calls that actually stopped a live
stream. -/
def camReleases (st : CamState) : Nat := st.stopped.length

/-!
Model of the speaking indicator
(`src/frontend/src/components/AudioIndicator.jsx` lines 4-19) driven by the
`isPlaying` state that the `AudioPlayer` event listeners maintain
(`src/unnamed/part_001` lines 283-301: `play` sets it true, `pause` and
`ended` set it false; superseding an audio reference calls
`audio.pause()` first, firing `pause`).

The indicator's effect runs when `isPlaying` changes: the previous run's
cleanup clears its own pending 3-second timeout, then, only when the new
value is `true`, the effect sets `visible` and schedules a fresh timeout
that sets `visible` to `false` when it fires.
-/

/-- Indicator state: the `isPlaying` prop, the `visible` state, and whether
a scheduled hide-timeout is still pending. -/
structure IndState where
  isPlaying : Bool
  visible : Bool
  timerPending : Bool
deriving DecidableEq, Repr

/-- Initial state: not playing, indicator hidden, no timer. -/
def indInitial : IndState :=
  { isPlaying := false, visible := false, timerPending := false }

/-- Propagate a new `isPlaying` prop value: if unchanged the effect does
not re-run; otherwise the previous run's cleanup clears the pending
timeout, and when the new value is `true` the effect shows the indicator
and schedules the 3-second hide. -/
def applyPlaying (st : IndState) (b : Bool) : IndState :=
  if b = st.isPlaying then st
  else if b then { isPlaying := true, visible := true, timerPending := true }
  else { st with isPlaying := false, timerPending := false }

/-- The observable events of one playback run. -/
inductive AudioEvent where
  | play : AudioEvent
  | pause : AudioEvent
  | ended : AudioEvent
  | timerFire : AudioEvent
deriving DecidableEq, Repr

/-- One event step: media events update `isPlaying` (through the
`AudioPlayer` listeners) and hence the indicator effect; a still-pending
timeout firing hides the indicator (a cleared timeout never fires). -/
def indStep (st : IndState) : AudioEvent → IndState
  | .play => applyPlaying st true
  | .pause => applyPlaying st false
  | .ended => applyPlaying st false
  | .timerFire =>
    if st.timerPending then { st with visible := false, timerPending := false }
    else st

/-- Run the indicator machine over an event trace from the initial state. -/
def indRun (evs : List AudioEvent) : IndState :=
  evs.foldl indStep indInitial

/-! Concrete fixtures used to instantiate the theorems below. -/

/-- A first-question reply carrying an audio URL. -/
def q1 : QuestionResponse :=
  { message := "What is your name?", awaiting_followup := false
  , done := false, audio_url := some "/audio/q1.mp3" }

/-- A followup-upload question reply without audio. -/
def q2 : QuestionResponse :=
  { message := "Upload your insurance card", awaiting_followup := true
  , done := false, audio_url := none }

/-- A document-upload reply. -/
def up1 : UploadResponse := { extracted_data := "insurance-card-data" }

/-- A transcription reply. -/
def vr1 : VoiceResponse :=
  { message := some "Thanks", text := none, awaiting_followup := false
  , done := false, audio_url := none }

/-- An initialized, idle app state with one seeded turn. -/
def stReady : AppState :=
  { initialAppState with
    sessionId := some "s1"
  , hasInitialized := true
  , messages := [assistantTurn "What is your name?"] }

/-- `stReady` while a request is pending (`isLoading` set). -/
def stBusy : AppState := { stReady with isLoading := true }

/-- Requests that carry the user's input to the service (an answer, a
document batch, or a recorded-audio blob), as opposed to the read-only
question/audio fetches. -/
def isSubmissionReq : Request → Bool
  | .submitAnswer _ _ => true
  | .uploadDocs _ _ => true
  | .answerTranscribe _ => true
  | _ => false

/-- `padStart` padding written as unconditional replication: when the
string is already long enough the replication is empty. -/
theorem padStart_eq_replicate (s : String) (len : Nat) (c : Char) :
    padStart s len c = String.mk (List.replicate (len - s.length) c) ++ s := by
  unfold padStart
  split
  · next h =>
    rw [Nat.sub_eq_zero_of_le h]
    cases s with
    | mk data => rfl
  · rfl

/-- C9: for every non-negative integer `s`, the recorder's elapsed-time
formatter returns `floor(s/60)` in decimal left-padded with `'0'` to at
least two digits, a colon, and `s mod 60` in decimal left-padded with `'0'`
to (exactly) two digits; e.g. `0` maps to `"00:00"` and `125` to
`"02:05"`. -/
theorem formatTime_renders_padded_minutes_and_seconds (s : Nat) :
    formatTime s = zeroPadTwo (s / 60) ++ ":" ++ zeroPadTwo (s % 60) ∧
    (zeroPadTwo (s % 60)).length = 2 ∧
    formatTime 0 = "00:00" ∧
    formatTime 125 = "02:05" := by
  refine ⟨?_, ?_, by decide, by decide⟩
  · simp only [formatTime, zeroPadTwo, padStart_eq_replicate]
  · have h60 : s % 60 < 60 := Nat.mod_lt s (by norm_num)
    have hall : ∀ n, n < 60 → (zeroPadTwo n).length = 2 := by decide
    exact hall (s % 60) h60

/-- C6: `api.uploadDocuments`, when handed the skip value that
`FileUpload`'s skip button emits, issues exactly the request that
`api.submitAnswer` with the literal string `"skip"` issues — the upload
operation delegates to the text-answer operation. -/
theorem skip_upload_equals_skip_answer (sid : String) :
    uploadDocumentsRequests sid handleSkipValue = [submitAnswerRequest sid "skip"] ∧
    submitAnswerRequest sid "skip" = Request.submitAnswer sid "skip" := by
  exact ⟨rfl, rfl⟩

/-- C10: with no session (`sessionId` null), the text-answer and
file-upload handlers return immediately: the state is unchanged — no user
turn appended, no field modified — and no network request is issued. -/
theorem no_session_handlers_are_noops (st : AppState) (text : String)
    (files : List String)
    (sr aq nq : Except Unit QuestionResponse) (ur : Except Unit UploadResponse)
    (h : st.sessionId = none) :
    handleSendMessage st text sr aq = (st, []) ∧
    handleFileUpload st files ur nq = (st, []) := by
  unfold handleSendMessage handleFileUpload
  rw [h]
  exact ⟨rfl, rfl⟩

/-- Witness for C10 at a concrete pre-initialization state. -/
theorem no_session_handlers_are_noops_witness :
    initialAppState.sessionId = none ∧
    handleSendMessage initialAppState "Jane" (.ok q1) (.ok q1) = (initialAppState, []) ∧
    handleFileUpload initialAppState ["card.jpg"] (.ok up1) (.ok q2) = (initialAppState, []) :=
  ⟨rfl,
   (no_session_handlers_are_noops initialAppState "Jane" ["card.jpg"]
      (.ok q1) (.ok q1) (.ok q2) (.ok up1) rfl).1,
   (no_session_handlers_are_noops initialAppState "Jane" ["card.jpg"]
      (.ok q1) (.ok q1) (.ok q2) (.ok up1) rfl).2⟩

/-- C1 (failing execution): with a request pending (`isLoading = true`),
the text and file-upload handlers are rejected with no network call, but
the `part_008` voice handler still appends a user turn and issues its
`POST /answer_transcribe` request — the mutual-exclusion claim fails on the
recorded-audio path. -/
theorem busy_voice_submission_not_rejected :
    handleSendMessage stBusy "Jane" (.ok q1) (.ok q1) = (stBusy, []) ∧
    handleFileUpload stBusy ["card.jpg"] (.ok up1) (.ok q2) = (stBusy, []) ∧
    (handleVoiceResponse stBusy (.ok vr1)).2 = [Request.answerTranscribe "s1"] ∧
    (handleVoiceResponse stBusy (.ok vr1)).1.messages ≠ stBusy.messages := by
  refine ⟨rfl, rfl, rfl, ?_⟩
  decide

/-- The camera lifecycle that exits through `confirmCapture`: mount with a
successful acquisition, take a picture, confirm (which unmounts the
component through `onClose`). -/
def camConfirmRun : CamState :=
  confirmCapture (takePicture (camEffectRun camInitial true))

/-- The camera lifecycle that exits through `handleClose`. -/
def camCloseRun : CamState :=
  handleCameraClose (camEffectRun camInitial true)

/-- C4 (failing execution): over the confirm lifecycle the camera acquires
one stream but stops zero — `confirmCapture` never stops the tracks and the
unmount cleanup's closure captured the pre-acquisition `null` stream — so
releases (0) differ from successful acquisitions (1) even though the image
was emitted; the `handleClose` exit, by contrast, is balanced. -/
theorem confirm_leaks_camera_stream :
    camConfirmRun.acquired = 1 ∧
    camReleases camConfirmRun = 0 ∧
    camConfirmRun.emitted = 1 ∧
    camConfirmRun.unmounted = true ∧
    camCloseRun.acquired = 1 ∧
    camReleases camCloseRun = 1 := by
  decide

/-- C8 (failing execution): after playback starts and then pauses before
the 3-second timeout fires, the timeout is cancelled, so the indicator is
still visible while no audio is playing — and a later timer event does not
hide it. -/
theorem indicator_visible_after_pause :
    (indRun [.play, .pause]).visible = true ∧
    (indRun [.play, .pause]).isPlaying = false ∧
    indStep (indRun [.play, .pause]) .timerFire = indRun [.play, .pause] := by
  decide

/-- C5: initialization is idempotent — a second invocation on the state
the first one produced is a no-op (same state, no requests), the first
invocation issues exactly one `POST /session`, and on success the log is
seeded with exactly the one first turn. -/
theorem initialize_session_idempotent (st : AppState)
    (c c2 : Except Unit String)
    (q q2 a a2 : Except Unit QuestionResponse)
    (h : st.hasInitialized = false) :
    initializeSession (initializeSession st c q a).1 c2 q2 a2
      = ((initializeSession st c q a).1, []) ∧
    (initializeSession st c q a).2.count Request.createSession = 1 ∧
    (∀ sid qr, c = .ok sid → q = .ok qr →
      (initializeSession st c q a).1.messages = [assistantTurn qr.message]) := by
  rcases c with e | sid
  · simp [initializeSession, h, List.count_cons]
  · rcases q with e | qr
    · simp [initializeSession, h, List.count_cons]
    · rcases a with e2 | ar
      · simp [initializeSession, getNextQuestionAudio, h, List.count_cons]
      · rcases ha : ar.audio_url with _ | u <;>
          simp [initializeSession, getNextQuestionAudio, ha, h, List.count_cons]

/-- Witness for C5: both invocations at concrete inputs. -/
theorem initialize_session_idempotent_witness :
    initialAppState.hasInitialized = false ∧
    initializeSession (initializeSession initialAppState (.ok "s1") (.ok q1) (.ok q1)).1
        (.ok "s2") (.ok q2) (.ok q2)
      = ((initializeSession initialAppState (.ok "s1") (.ok q1) (.ok q1)).1, []) ∧
    (initializeSession initialAppState (.ok "s1") (.ok q1) (.ok q1)).1.messages
      = [assistantTurn q1.message] :=
  ⟨rfl,
   (initialize_session_idempotent initialAppState (.ok "s1") (.ok "s2")
      (.ok q1) (.ok q2) (.ok q1) (.ok q2) rfl).1,
   (initialize_session_idempotent initialAppState (.ok "s1") (.ok "s2")
      (.ok q1) (.ok q2) (.ok q1) (.ok q2) rfl).2.2 "s1" q1 rfl rfl⟩

/-- C7: every failing submission (text answer, upload request, the
next-question fetch after an upload, or transcription) appends exactly one
inline assistant-style error turn and leaves `sessionId`,
`awaitingFollowup` and `isDone` — and hence the offered input mode —
unchanged. -/
theorem submission_failure_keeps_turn_state (st : AppState) (sid text : String)
    (files : List String) (aq : Except Unit QuestionResponse)
    (up : UploadResponse)
    (h1 : st.sessionId = some sid) (h2 : st.isLoading = false) :
    handleSendMessage st text (.error ()) aq =
      ({ st with messages := st.messages ++ [userTurn text, sendFailTurn] },
       [Request.submitAnswer sid text]) ∧
    handleFileUpload st files (.error ()) aq =
      ({ st with messages := st.messages ++
          [userTurn ("Uploading " ++ Nat.repr files.length ++ " file(s)"),
           uploadFailTurn] },
       [Request.uploadDocs sid files]) ∧
    handleFileUpload st files (.ok up) (.error ()) =
      ({ st with
          messages := st.messages ++
            [userTurn ("Uploading " ++ Nat.repr files.length ++ " file(s)"),
             assistantTurn (Nat.repr files.length ++ " File(s) processed successfully."),
             uploadFailTurn]
        , latestExtractedData := some up.extracted_data },
       [Request.uploadDocs sid files, Request.getQuestion sid]) ∧
    handleVoiceResponse st (.error ()) =
      ({ st with messages := st.messages ++ [voiceSentTurn, voiceFailTurn] },
       [Request.answerTranscribe sid]) := by
  refine ⟨?_, ?_, ?_, ?_⟩ <;>
    simp [handleSendMessage, handleFileUpload, handleVoiceResponse,
      sessionIdString, h1, h2]

/-- Witness for C7 at a concrete ready state. -/
theorem submission_failure_keeps_turn_state_witness :
    stReady.sessionId = some "s1" ∧ stReady.isLoading = false ∧
    handleSendMessage stReady "Jane" (.error ()) (.ok q1) =
      ({ stReady with messages := stReady.messages ++ [userTurn "Jane", sendFailTurn] },
       [Request.submitAnswer "s1" "Jane"]) :=
  ⟨rfl, rfl,
   (submission_failure_keeps_turn_state stReady "s1" "Jane" ["card.jpg"]
      (.ok q1) up1 rfl rfl).1⟩

/-- The state after initialization and one accepted single-file upload
whose round trip succeeded. -/
def c2run : AppState :=
  (handleFileUpload (initializeSession initialAppState (.ok "s1") (.ok q1) (.ok q1)).1
     ["card.jpg"] (.ok up1) (.ok q2)).1

/-- C2 (failing execution): after N = 1 accepted submission (an upload of
one file) the log holds 4 turns, not 2N = 2 — the seeded first turn plus
one user turn and two assistant turns (the processing notice and the next
question), so an upload does not append exactly one assistant turn. -/
theorem upload_round_trip_log_is_four_turns :
    c2run.messages.length = 4 ∧
    c2run.messages.length ≠ 2 ∧
    c2run.messages =
      [assistantTurn "What is your name?",
       userTurn "Uploading 1 file(s)",
       assistantTurn "1 File(s) processed successfully.",
       assistantTurn "Upload your insurance card"] := by
  decide

/-- C2 (amended): initialization seeds exactly one turn, a successful text
or transcription round trip appends exactly one user and one assistant turn
(+2), and a successful upload round trip appends exactly one user turn and
two assistant turns (+3) regardless of file count. -/
theorem accepted_submission_log_growth (st : AppState) (sid text : String)
    (files : List String) (q nq : QuestionResponse)
    (a : Except Unit QuestionResponse) (up : UploadResponse) (v : VoiceResponse)
    (h1 : st.sessionId = some sid) (h2 : st.isLoading = false) :
    (handleSendMessage st text (.ok q) a).1.messages
      = st.messages ++ [userTurn text, assistantTurn q.message] ∧
    (handleFileUpload st files (.ok up) (.ok nq)).1.messages
      = st.messages ++
          [userTurn ("Uploading " ++ Nat.repr files.length ++ " file(s)"),
           assistantTurn (Nat.repr files.length ++ " File(s) processed successfully."),
           assistantTurn nq.message] ∧
    (handleVoiceResponse st (.ok v)).1.messages
      = st.messages ++
          [voiceSentTurn,
           assistantTurn ((v.message.orElse fun _ => v.text).getD "🤖 No message")] ∧
    (handleSendMessage st text (.ok q) a).1.messages.length
      = st.messages.length + 2 ∧
    (handleFileUpload st files (.ok up) (.ok nq)).1.messages.length
      = st.messages.length + 3 ∧
    (initializeSession initialAppState (.ok sid) (.ok q) a).1.messages
      = [assistantTurn q.message] := by
  refine ⟨?_, ?_, ?_, ?_, ?_, ?_⟩ <;>
    simp [handleSendMessage, handleFileUpload, handleVoiceResponse,
      initializeSession, initialAppState, h1, h2]

/-- Witness for the amended C2 at concrete inputs. -/
theorem accepted_submission_log_growth_witness :
    stReady.sessionId = some "s1" ∧ stReady.isLoading = false ∧
    (handleSendMessage stReady "Jane" (.ok q2) (.ok q2)).1.messages
      = stReady.messages ++ [userTurn "Jane", assistantTurn q2.message] :=
  ⟨rfl, rfl,
   (accepted_submission_log_growth stReady "s1" "Jane" ["card.jpg"]
      q2 q2 (.ok q2) up1 vr1 rfl rfl).1⟩

/-- The requests issued by one accepted text submission whose reply carries
an audio URL. -/
def c3reqs : List Request := (handleSendMessage stReady "Jane" (.ok q1) (.ok q1)).2

/-- C3 (failing execution): a single accepted text answer issues three
network requests — the answer post, then the question fetch and the audio
fetch performed by `getNextQuestionAudio` — not exactly one. -/
theorem text_submission_issues_three_requests :
    c3reqs = [Request.submitAnswer "s1" "Jane", Request.getQuestion "s1",
              Request.fetchAudio "/audio/q1.mp3"] ∧
    c3reqs.length ≠ 1 := by
  decide

/-- C3 (amended): every accepted input issues exactly one answer-carrying
submission request; the text path issues at most two further read-only
fetches (question and audio), the upload path exactly one further
next-question fetch, and the voice path nothing else. -/
theorem one_submission_request_per_accepted_input (st : AppState)
    (sid text : String) (files : List String)
    (sr aq nq : Except Unit QuestionResponse)
    (ur : Except Unit UploadResponse) (v : Except Unit VoiceResponse)
    (h1 : st.sessionId = some sid) (h2 : st.isLoading = false) :
    (handleSendMessage st text sr aq).2.countP (fun r => isSubmissionReq r) = 1 ∧
    (handleSendMessage st text sr aq).2.length ≤ 3 ∧
    (handleFileUpload st files ur nq).2.countP (fun r => isSubmissionReq r) = 1 ∧
    (handleFileUpload st files ur nq).2.length ≤ 2 ∧
    (handleVoiceResponse st v).2 = [Request.answerTranscribe sid] := by
  refine ⟨?_, ?_, ?_, ?_, ?_⟩
  · rcases sr with e | r
    · simp [handleSendMessage, h1, h2, isSubmissionReq]
    · rcases aq with e2 | ar
      · simp [handleSendMessage, getNextQuestionAudio, h1, h2, isSubmissionReq]
      · rcases ha : ar.audio_url with _ | u <;>
          simp [handleSendMessage, getNextQuestionAudio, ha, h1, h2, isSubmissionReq]
  · rcases sr with e | r
    · simp [handleSendMessage, h1, h2]
    · rcases aq with e2 | ar
      · simp [handleSendMessage, getNextQuestionAudio, h1, h2]
      · rcases ha : ar.audio_url with _ | u <;>
          simp [handleSendMessage, getNextQuestionAudio, ha, h1, h2]
  · rcases ur with e | r
    · simp [handleFileUpload, h1, h2, isSubmissionReq]
    · rcases nq with e2 | nr <;> simp [handleFileUpload, h1, h2, isSubmissionReq]
  · rcases ur with e | r
    · simp [handleFileUpload, h1, h2]
    · rcases nq with e2 | nr <;> simp [handleFileUpload, h1, h2]
  · rcases v with e | r <;> simp [handleVoiceResponse, sessionIdString, h1, h2]

/-- Witness for the amended C3 at concrete inputs. -/
theorem one_submission_request_per_accepted_input_witness :
    stReady.sessionId = some "s1" ∧ stReady.isLoading = false ∧
    (handleSendMessage stReady "Jane" (.ok q1) (.ok q1)).2.countP
      (fun r => isSubmissionReq r) = 1 :=
  ⟨rfl, rfl,
   (one_submission_request_per_accepted_input stReady "s1" "Jane" ["card.jpg"]
      (.ok q1) (.ok q1) (.ok q2) (.ok up1) (.ok vr1) rfl rfl).1⟩

/-- C8 (amended): the indicator becomes visible when playback starts and a
3-second timeout is scheduled to hide it; a still-pending timeout firing
hides the indicator (even if audio still plays), while `ended`, `pause`, or
a superseding reference (which fires `pause`) cancels the pending timeout
and leaves visibility as it was — so the indicator is not hidden in
response to playback stopping. -/
theorem indicator_shows_on_play_hides_only_by_timer :
    (∀ st : IndState, st.isPlaying = false →
      indStep st .play = { isPlaying := true, visible := true, timerPending := true }) ∧
    (∀ st : IndState, st.timerPending = true →
      indStep st .timerFire = { st with visible := false, timerPending := false }) ∧
    (∀ st : IndState, st.isPlaying = true →
      indStep st .pause = { st with isPlaying := false, timerPending := false }) ∧
    (∀ st : IndState, st.isPlaying = true →
      indStep st .ended = { st with isPlaying := false, timerPending := false }) := by
  refine ⟨?_, ?_, ?_, ?_⟩ <;> intro st h <;> simp [indStep, applyPlaying, h]

/-- Witness for the amended C8 at concrete indicator states. -/
theorem indicator_shows_on_play_hides_only_by_timer_witness :
    indInitial.isPlaying = false ∧
    indStep indInitial .play
      = { isPlaying := true, visible := true, timerPending := true } ∧
    indStep { isPlaying := true, visible := true, timerPending := true } .timerFire
      = { isPlaying := true, visible := false, timerPending := false } ∧
    indStep { isPlaying := true, visible := true, timerPending := true } .pause
      = { isPlaying := false, visible := true, timerPending := false } :=
  ⟨rfl,
   indicator_shows_on_play_hides_only_by_timer.1 indInitial rfl,
   indicator_shows_on_play_hides_only_by_timer.2.1
     { isPlaying := true, visible := true, timerPending := true } rfl,
   indicator_shows_on_play_hides_only_by_timer.2.2.1
     { isPlaying := true, visible := true, timerPending := true } rfl⟩
